import Mathlib

/-!
Verification of the hadesmem interception core against its design description.

The development shallowly embeds three source files:

* include/memory/hadesmem/detail/protect_guard.hpp — the scoped protection
  guard (`ProtectGuard`);
* examples/cerberus/direct_input_device_8_w_proxy.cpp — the reference-counted
  interception proxy (`DirectInputDevice8WProxy`);
* examples/dump/main.cpp — the batch inspection driver.

External collaborators (the `Protect` mutator, the wrapped device, callback
lists, the trace sink) are modelled as function parameters, so every theorem
quantifies over their behaviour.  Ghost data (lists of issued mutator
requests, event lists, transition counters) is threaded through the
definitions to make call counts and orderings statable.
-/

namespace Hadesmem

/-! ### Protection guard: data model

From include/memory/hadesmem/detail/protect_guard.hpp.  A region is carried
around as a `MEMORY_BASIC_INFORMATION` snapshot; the guard only ever consumes
it through the three classifiers `IsBadProtect`, `CanRead` and `CanWrite`
(whose headers are not among the sources), so the embedding keeps the
snapshot abstract as the triple of classification results. -/

/-- Modelled from the spec: a memory-region snapshot, reduced to the
classification vocabulary of the missing headers protect_region.hpp and
query_region.hpp — whether the protection mask is Bad (guard pages,
no-access, inconsistent combinations), whether the region is readable, and
whether it is writable. -/
structure Region where
  isBad : Bool
  canRead : Bool
  canWrite : Bool
deriving DecidableEq, Repr

/-- The access mode requested from a guard (enum class ProtectGuardType). -/
inductive ProtectGuardType
  | kRead
  | kWrite
deriving DecidableEq, Repr

/-- The external `Protect` mutator (hadesmem/protect.hpp, not among the
sources): given a process identity, a region snapshot and the requested
protection flags, it either returns the previous flags or fails (throws).
Modelled as an oracle so theorems quantify over every mutator behaviour. -/
structure Mutator where
  protect : Nat → Region → Nat → Option Nat

/-- Windows protection constant PAGE_READWRITE. -/
def PAGE_READWRITE : Nat := 4

/-- Windows protection constant PAGE_EXECUTE_READWRITE. -/
def PAGE_EXECUTE_READWRITE : Nat := 64

/-- Errors a guard construction can propagate: the explicit throw on a Bad
region (the spec's InvalidProtection), and a mutator failure propagated out
of the constructor (the spec's AccessDenied). -/
inductive GuardError
  | invalidProtection
  | accessDenied
deriving DecidableEq, Repr

/-- The fields of class ProtectGuard: the target process identity, the
requested mode, the `already satisfied` flag can_read_or_write_, the saved
previous protection old_protect_ (0 when no change is pending), and the
region snapshot mbi_. -/
structure ProtectGuard where
  process_ : Nat
  type_ : ProtectGuardType
  can_read_or_write_ : Bool
  old_protect_ : Nat
  mbi_ : Region
deriving DecidableEq, Repr

/-- The `(type_ == ProtectGuardType::kRead) ? CanRead(mbi_) : CanWrite(mbi_)`
computation of the constructor. -/
def regionSatisfies (mbi : Region) (t : ProtectGuardType) : Bool :=
  match t with
  | ProtectGuardType.kRead => mbi.canRead
  | ProtectGuardType.kWrite => mbi.canWrite

/-- A single request issued to the mutator: process, region, requested
flags. -/
abbrev MutatorCall := Nat × Region × Nat

/-- Embedding of the ProtectGuard constructor taking an mbi snapshot
(protect_guard.hpp lines 40-74).  Returns the constructed guard or the
propagated error, paired with the ghost list of requests issued to the
mutator, in program order: throw InvalidProtection on a Bad region with no
mutator call; otherwise compute can_read_or_write_; if unsatisfied, request
PAGE_EXECUTE_READWRITE and, only when that throws, fall back to one
PAGE_READWRITE request, whose failure propagates. -/
def mkProtectGuard (m : Mutator) (proc : Nat) (mbi : Region)
    (t : ProtectGuardType) : Except GuardError ProtectGuard × List MutatorCall :=
  if mbi.isBad then
    (Except.error GuardError.invalidProtection, [])
  else
    let can := regionSatisfies mbi t
    if can then
      (Except.ok ⟨proc, t, can, 0, mbi⟩, [])
    else
      match m.protect proc mbi PAGE_EXECUTE_READWRITE with
      | some prev =>
        (Except.ok ⟨proc, t, can, prev, mbi⟩,
          [(proc, mbi, PAGE_EXECUTE_READWRITE)])
      | none =>
        match m.protect proc mbi PAGE_READWRITE with
        | some prev =>
          (Except.ok ⟨proc, t, can, prev, mbi⟩,
            [(proc, mbi, PAGE_EXECUTE_READWRITE), (proc, mbi, PAGE_READWRITE)])
        | none =>
          (Except.error GuardError.accessDenied,
            [(proc, mbi, PAGE_EXECUTE_READWRITE), (proc, mbi, PAGE_READWRITE)])

/-- Outcome of one Restore call: the guard state afterwards, whether the call
returned normally (`ok = false` means the mutator threw and the exception
propagated), and the ghost list of mutator requests it issued. -/
structure RestoreResult where
  guard : ProtectGuard
  ok : Bool
  calls : List MutatorCall
deriving DecidableEq, Repr

/-- Embedding of ProtectGuard::Restore (protect_guard.hpp lines 116-129):
return immediately when old_protect_ is 0; otherwise, when
can_read_or_write_ is false, ask the mutator to reinstate old_protect_ —
on a throw the exception propagates before `old_protect_ = 0` executes, so
the saved value is retained; on success (and on the can_read_or_write_ true
path) old_protect_ is cleared. -/
def ProtectGuard.Restore (g : ProtectGuard) (m : Mutator) : RestoreResult :=
  if g.old_protect_ = 0 then
    ⟨g, true, []⟩
  else if g.can_read_or_write_ = false then
    match m.protect g.process_ g.mbi_ g.old_protect_ with
    | some _ =>
      ⟨{ g with old_protect_ := 0 }, true,
        [(g.process_, g.mbi_, g.old_protect_)]⟩
    | none => ⟨g, false, [(g.process_, g.mbi_, g.old_protect_)]⟩
  else
    ⟨{ g with old_protect_ := 0 }, true, []⟩

/-- Embedding of ProtectGuard::RestoreUnchecked (protect_guard.hpp lines
131-144), the destructor path: it runs Restore and swallows any exception
(traced and asserted only), so it always returns normally and issues exactly
the requests Restore issues. -/
def ProtectGuard.RestoreUnchecked (g : ProtectGuard) (m : Mutator) :
    RestoreResult :=
  let r := g.Restore m
  { r with ok := true }

/-- Result of the move-assignment operator: the assigned-to guard, the
moved-from guard, and the ghost list of mutator requests issued during the
assignment itself. -/
structure MoveAssignResult where
  target : ProtectGuard
  source : ProtectGuard
  calls : List MutatorCall
deriving DecidableEq, Repr

/-- Embedding of ProtectGuard::operator=(ProtectGuard&&) (protect_guard.hpp
lines 98-109): every field of the target is overwritten with the source's
values, the source's old_protect_ is zeroed, and no Restore (hence no
mutator request) happens on the target's previous state. -/
def ProtectGuard.moveAssign (target other : ProtectGuard) : MoveAssignResult :=
  ⟨{ process_ := other.process_
     type_ := other.type_
     can_read_or_write_ := other.can_read_or_write_
     old_protect_ := other.old_protect_
     mbi_ := other.mbi_ },
   { other with old_protect_ := 0 },
   []⟩

/-! ### Interception proxy: data model

From examples/cerberus/direct_input_device_8_w_proxy.cpp.  The proxy keeps
an external reference count refs_ (a signed counter, traced as %lld)
distinct from the wrapped device's own count.  The wrapped
IDirectInputDevice8W is an external collaborator; its reference count is
carried in the state so that the `ret == 0` destruction gate is statable. -/

/-- An interface handle as observable through a QueryInterface output
pointer: the proxy itself, the wrapped device, or some other interface. -/
inductive Handle
  | proxy
  | device
  | other
deriving DecidableEq, Repr

/-- The proxy state: the external count refs_, the wrapped device's own
count, whether `delete this` has run, plus ghost counters for Cleanup runs
and for transitions of the external count to zero. -/
structure ProxyState where
  refs : Int
  deviceRefs : Nat
  destroyed : Bool
  cleanups : Nat
  zeroTransitions : Nat
deriving DecidableEq, Repr

/-- The observable steps inside one Release call, in the vocabulary of the
design description: the external-count decrement, the Cleanup hook, the
forwarded wrapped Release, and `delete this`. -/
inductive ReleaseEvent
  | decRef
  | cleanup
  | forwardRelease
  | destroy
deriving DecidableEq, Repr

/-- Outcome of one Release call: the state afterwards, the value returned to
the caller (the wrapped object's returned count), and the ghost event list
in program order. -/
structure ReleaseResult where
  state : ProxyState
  ret : Nat
  events : List ReleaseEvent
deriving DecidableEq, Repr

/-- Embedding of DirectInputDevice8WProxy::Release (lines 60-85): decrement
refs_; if it reached zero run Cleanup; forward to the wrapped Release
(which drops the device's own count by one and returns the new count); if
the returned count is zero, `delete this`.  The returned value is the
wrapped object's count. -/
def releaseStep (s : ProxyState) : ReleaseResult :=
  let refs2 := s.refs - 1
  let hitZero := decide (refs2 = 0)
  let ret := s.deviceRefs - 1
  let dead := decide (ret = 0)
  { state :=
      { refs := refs2
        deviceRefs := ret
        destroyed := dead
        cleanups := s.cleanups + (if hitZero then 1 else 0)
        zeroTransitions := s.zeroTransitions + (if hitZero then 1 else 0) }
    ret := ret
    events :=
      [ReleaseEvent.decRef] ++ (if hitZero then [ReleaseEvent.cleanup] else [])
        ++ [ReleaseEvent.forwardRelease]
        ++ (if dead then [ReleaseEvent.destroy] else []) }

/-- Embedding of DirectInputDevice8WProxy::AddRef (lines 51-58): increment
refs_, forward to the wrapped AddRef (which bumps the device's own count),
and return the wrapped object's resulting count. -/
def addRefStep (s : ProxyState) : ProxyState × Nat :=
  ({ s with refs := s.refs + 1, deviceRefs := s.deviceRefs + 1 },
    s.deviceRefs + 1)

/-- What the wrapped device's QueryInterface produced: the HRESULT and the
handle it stored through the output pointer (meaningful when the HRESULT is
a success, i.e. nonnegative). -/
structure DeviceQIResult where
  hr : Int
  out : Handle
deriving DecidableEq, Repr

/-- The COM error code E_NOINTERFACE (0x80004002 as a signed 32-bit
value). -/
def E_NOINTERFACE : Int := -2147467262

/-- Outcome of one QueryInterface call through the proxy: the state
afterwards, the HRESULT returned to the caller, the handle the caller
observes through the output pointer (none when the call failed and no
handle was produced), and the ghost count of Release calls issued on a
foreign handle. -/
structure QIResult where
  state : ProxyState
  hr : Int
  out : Option Handle
  foreignReleases : Nat
deriving DecidableEq, Repr

/-- Embedding of DirectInputDevice8WProxy::QueryInterface (lines 17-49):
delegate to the wrapped object; on SUCCEEDED(ret): if the produced handle
is the wrapped device itself (whose own count the successful query
incremented), increment refs_ and substitute the proxy through the output
pointer; otherwise release the foreign handle once and return
E_NOINTERFACE.  On failure, return the wrapped object's HRESULT
unchanged. -/
def queryInterfaceStep (s : ProxyState) (d : DeviceQIResult) : QIResult :=
  if 0 ≤ d.hr then
    if d.out = Handle.device then
      { state := { s with refs := s.refs + 1, deviceRefs := s.deviceRefs + 1 }
        hr := d.hr
        out := some Handle.proxy
        foreignReleases := 0 }
    else
      { state := s
        hr := E_NOINTERFACE
        out := some d.out
        foreignReleases := 1 }
  else
    { state := s, hr := d.hr, out := none, foreignReleases := 0 }

/-! ### Reference-counting executions of the proxy

A reachable execution is a sequence of calls made through the proxy by
callers that follow the interface's lifetime contract: a method may only be
invoked on a proxy that has not been destroyed, by a caller holding an
outstanding reference (after destruction, and with no references held, any
further use is undefined by design).  Steps violating that contract are
rejected (`none`). -/

/-- The reference-count-relevant operations a caller can perform through the
proxy: AddRef, Release, and a QueryInterface that the wrapped object
answers with its own identity. -/
inductive ProxyOp
  | opAddRef
  | opRelease
  | opQuerySelf
deriving DecidableEq, Repr

/-- One contract-respecting call through the proxy: defined only while the
proxy is not destroyed and the external count is positive (the caller holds
a reference). -/
def proxyStep (s : ProxyState) (op : ProxyOp) : Option ProxyState :=
  if s.destroyed then none
  else if s.refs < 1 then none
  else
    match op with
    | ProxyOp.opAddRef => some (addRefStep s).1
    | ProxyOp.opRelease => some (releaseStep s).state
    | ProxyOp.opQuerySelf =>
      some (queryInterfaceStep s ⟨0, Handle.device⟩).state

/-- Run a sequence of contract-respecting calls. -/
def proxyExec (s : ProxyState) : List ProxyOp → Option ProxyState
  | [] => some s
  | op :: ops =>
    match proxyStep s op with
    | some s2 => proxyExec s2 ops
    | none => none

/-- Modelled from the spec: the proxy's constructor (its header is not among
the sources) wraps a live device whose own count is d0; Wrap hands the
caller one proxy reference, so the external count starts at 1, nothing is
destroyed and no Cleanup has run. -/
def initProxy (d0 : Nat) : ProxyState :=
  { refs := 1
    deviceRefs := d0
    destroyed := false
    cleanups := 0
    zeroTransitions := 0 }

/-! ### Ambient error state at the interception points

The thread-local platform error state (GetLastError/SetLastError) is
modelled as an explicit value threaded through each call.  Each external
effect (the wrapped call, the callback list, the trace sink) is a function
from the ambient value it runs under to what it leaves behind. -/

/-- Modelled from the spec: hadesmem::detail::LastErrorPreserver (its header
is not among the sources).  Construction snapshots the thread-local error
state; Revert re-installs the saved snapshot; Update re-captures the
current ambient value; destruction re-installs the saved snapshot. -/
structure LastErrorPreserver where
  saved : Nat
deriving DecidableEq, Repr

/-- Constructor: snapshot the current ambient error value. -/
def LastErrorPreserver.capture (ambient : Nat) : LastErrorPreserver :=
  ⟨ambient⟩

/-- Revert: SetLastError(saved) — the new ambient value is the snapshot. -/
def LastErrorPreserver.revert (p : LastErrorPreserver) (_ambient : Nat) :
    Nat :=
  p.saved

/-- Update: saved = GetLastError() — re-capture the ambient value. -/
def LastErrorPreserver.update (_p : LastErrorPreserver) (ambient : Nat) :
    LastErrorPreserver :=
  ⟨ambient⟩

/-- Destructor: SetLastError(saved) on scope exit. -/
def LastErrorPreserver.onExit (p : LastErrorPreserver) (_ambient : Nat) :
    Nat :=
  p.saved

/-- Result code and ambient error state left behind by a call. -/
structure CallOutcome where
  ret : Int
  ambient : Nat
deriving DecidableEq, Repr

/-- Error-state flow of DirectInputDevice8WProxy::GetDeviceState (lines
120-133): preserver constructed on entry; Revert; wrapped GetDeviceState;
Update; the OnGetDeviceState callback list runs (it may override the result
and clobber the ambient error state); preserver destructor on return.
`dev` maps the ambient value the wrapped call runs under to its outcome;
`cb` maps the in-flight result and ambient value to theirs. -/
def getDeviceState (dev : Nat → CallOutcome) (cb : Int → Nat → CallOutcome)
    (e0 : Nat) : CallOutcome :=
  let p := LastErrorPreserver.capture e0
  let e1 := p.revert e0
  let d := dev e1
  let p2 := p.update d.ambient
  let c := cb d.ret d.ambient
  { ret := c.ret, ambient := p2.onExit c.ambient }

/-- Error-state flow of DirectInputDevice8WProxy::GetDeviceData (lines
135-151): the same preserver pattern around the wrapped call, followed by
the OnGetDeviceData callback list. -/
def getDeviceData (dev : Nat → CallOutcome) (cb : Int → Nat → CallOutcome)
    (e0 : Nat) : CallOutcome :=
  let p := LastErrorPreserver.capture e0
  let e1 := p.revert e0
  let d := dev e1
  let p2 := p.update d.ambient
  let c := cb d.ret d.ambient
  { ret := c.ret, ambient := p2.onExit c.ambient }

/-- Error-state flow of DirectInputDevice8WProxy::Release (lines 60-85):
preserver constructed on entry; the decrement, assertion and possible
Cleanup trace run first (effect `pre`); Revert; wrapped Release; Update;
the trace statement runs (effect `post`); preserver destructor on return.
The outcome pairs the wrapped count with the final ambient value. -/
def releaseAmbient (pre : Nat → Nat) (dev : Nat → Nat × Nat)
    (post : Nat → Nat) (e0 : Nat) : Nat × Nat :=
  let p := LastErrorPreserver.capture e0
  let eA := pre e0
  let e1 := p.revert eA
  let d := dev e1
  let p2 := p.update d.2
  let e2 := post d.2
  (d.1, p2.onExit e2)

/-- Error-state flow of DirectInputDevice8WProxy::QueryInterface (lines
17-49): preserver constructed on entry; Revert; wrapped QueryInterface;
Update; the branch logic, traces and a possible foreign-handle Release run
(effect `post`); preserver destructor on return. -/
def queryInterfaceAmbient (dev : Nat → Int × Nat) (post : Nat → Nat)
    (e0 : Nat) : Int × Nat :=
  let p := LastErrorPreserver.capture e0
  let e1 := p.revert e0
  let d := dev e1
  let p2 := p.update d.2
  let e2 := post d.2
  (d.1, p2.onExit e2)

/-- Outcome of one AddRef call: the external count afterwards, the wrapped
object's returned count, and the final ambient error value. -/
structure AddRefOutcome where
  refs : Int
  ret : Nat
  ambient : Nat
deriving DecidableEq, Repr

/-- Error-state flow of DirectInputDevice8WProxy::AddRef (lines 51-58):
refs_ is incremented, the wrapped AddRef runs, then the trace statement
runs — with no LastErrorPreserver anywhere, so the trace's effect on the
ambient error state (`trace`) reaches the caller unguarded. -/
def addRefCall (dev : Nat → Nat × Nat) (trace : Nat → Nat) (refs : Int)
    (e0 : Nat) : AddRefOutcome :=
  let refs2 := refs + 1
  let d := dev e0
  let e1 := trace d.2
  { refs := refs2, ret := d.1, ambient := e1 }

/-! ### Batch inspection driver

From examples/dump/main.cpp.  The loops of DumpModules (lines 111-145) and
DumpProcesses/DumpProcessEntry (lines 174-244) are embedded over abstract
per-target outcomes: whether a module's DOS/NT header construction throws
(caught at lines 131-141, which warns and continues), and whether opening a
process throws (caught at lines 191-202, which reports and returns). -/

/-- A module as the batch loop sees it: whether constructing its DosHeader
and NtHeaders succeeds. -/
structure ModuleInfo where
  validPe : Bool
deriving DecidableEq, Repr

/-- Embedding of the header-validation try-block of DumpModules: DosHeader
and NtHeaders construction either returns or throws. -/
def parseHeaders (m : ModuleInfo) : Except Unit Unit :=
  if m.validPe then Except.ok () else Except.error ()

/-- What the batch loop produces for one module: the warning emitted by the
catch-handler, or a full dump.  Modelled from the spec: DumpPeFile and the
per-section dumpers it calls are not among the sources; per the design
description a per-target failure must be reported and the run continued,
so the dump step is modelled as completing for every module that passes
header validation. -/
inductive ModuleDumpResult
  | warnedInvalidPe
  | dumped
deriving DecidableEq, Repr

/-- Embedding of one iteration of the DumpModules loop (lines 119-144):
construct the PE headers inside the try-block; on a throw, emit the
warning and `continue`; otherwise run DumpPeFile. -/
def dumpModule (m : ModuleInfo) : ModuleDumpResult :=
  match parseHeaders m with
  | Except.ok _ => ModuleDumpResult.dumped
  | Except.error _ => ModuleDumpResult.warnedInvalidPe

/-- Embedding of the DumpModules loop: every module of the list is visited;
a failing module only changes what is emitted for it. -/
def dumpModules (ms : List ModuleInfo) : List ModuleDumpResult :=
  ms.map dumpModule

/-- A process entry as the batch loop sees it: whether opening the process
succeeds, and the modules enumerated if it does. -/
structure ProcessEntryInfo where
  openOk : Bool
  modules : List ModuleInfo
deriving DecidableEq, Repr

/-- What DumpProcessEntry produces for one entry: the could-not-open report
of the catch-handler (after which it returns to the enclosing loop), or
the per-module results of its DumpModules call. -/
inductive ProcessDumpResult
  | couldNotOpen
  | dumped (moduleResults : List ModuleDumpResult)
deriving DecidableEq, Repr

/-- Embedding of DumpProcessEntry (lines 174-230) restricted to the
fallible steps visible in the source: open the process inside the
try-block; on a throw, report and return; otherwise dump its modules. -/
def dumpProcessEntry (p : ProcessEntryInfo) : ProcessDumpResult :=
  if p.openOk then ProcessDumpResult.dumped (dumpModules p.modules)
  else ProcessDumpResult.couldNotOpen

/-- Embedding of the DumpProcesses loop (lines 232-244): every entry of the
snapshot is visited in order. -/
def dumpProcesses (ps : List ProcessEntryInfo) : List ProcessDumpResult :=
  ps.map dumpProcessEntry

/-! ### Helper lemmas -/

/-- Every mutator request a Restore call issues carries the guard's own
process identity, region snapshot and saved previous protection. -/
theorem restore_calls_shape (g : ProtectGuard) (m : Mutator) :
    ∀ c ∈ (g.Restore m).calls, c = (g.process_, g.mbi_, g.old_protect_) := by
  intro c hc
  unfold ProtectGuard.Restore at hc
  split at hc
  · simp at hc
  · split at hc
    · split at hc <;> simpa using hc
    · simp at hc

/-! ### Claims about the protection guard -/

/-- C7: for every region classified Bad, ProtectGuard construction fails
with InvalidProtection and issues zero mutator requests. -/
theorem bad_region_fails_without_mutator_calls (m : Mutator) (proc : Nat)
    (mbi : Region) (t : ProtectGuardType) (hbad : mbi.isBad = true) :
    mkProtectGuard m proc mbi t
      = (Except.error GuardError.invalidProtection, []) := by
  simp [mkProtectGuard, hbad]

/-- Witness for C7 at a concrete Bad region. -/
theorem bad_region_fails_without_mutator_calls_witness :
    mkProtectGuard ⟨fun _ _ _ => none⟩ 0 ⟨true, false, false⟩
        ProtectGuardType.kRead
      = (Except.error GuardError.invalidProtection, []) :=
  bad_region_fails_without_mutator_calls ⟨fun _ _ _ => none⟩ 0
    ⟨true, false, false⟩ ProtectGuardType.kRead rfl

/-- C8: for every region already satisfying the requested mode (CanRead for
kRead, CanWrite for kWrite), construction issues zero mutator requests and
produces a guard with can_read_or_write_ (the already-satisfied flag) true
and no saved protection, and Restore on that guard is a no-op issuing zero
mutator requests. -/
theorem satisfied_region_construction_and_restore_noop (m m2 : Mutator)
    (proc : Nat) (mbi : Region) (t : ProtectGuardType)
    (hbad : mbi.isBad = false) (hsat : regionSatisfies mbi t = true) :
    (mkProtectGuard m proc mbi t).2 = [] ∧
    (mkProtectGuard m proc mbi t).1 = Except.ok ⟨proc, t, true, 0, mbi⟩ ∧
    ((⟨proc, t, true, 0, mbi⟩ : ProtectGuard).Restore m2).calls = [] ∧
    ((⟨proc, t, true, 0, mbi⟩ : ProtectGuard).Restore m2).guard
      = ⟨proc, t, true, 0, mbi⟩ := by
  refine ⟨?_, ?_, ?_, ?_⟩ <;>
    simp [mkProtectGuard, ProtectGuard.Restore, hbad, hsat]

/-- Witness for C8 at a concrete readable region with mode kRead. -/
theorem satisfied_region_construction_and_restore_noop_witness :
    (mkProtectGuard ⟨fun _ _ _ => none⟩ 0 ⟨false, true, false⟩
        ProtectGuardType.kRead).2 = [] ∧
    (mkProtectGuard ⟨fun _ _ _ => none⟩ 0 ⟨false, true, false⟩
        ProtectGuardType.kRead).1
      = Except.ok ⟨0, ProtectGuardType.kRead, true, 0, ⟨false, true, false⟩⟩ ∧
    ((⟨0, ProtectGuardType.kRead, true, 0, ⟨false, true, false⟩⟩ :
        ProtectGuard).Restore ⟨fun _ _ _ => none⟩).calls = [] ∧
    ((⟨0, ProtectGuardType.kRead, true, 0, ⟨false, true, false⟩⟩ :
        ProtectGuard).Restore ⟨fun _ _ _ => none⟩).guard
      = ⟨0, ProtectGuardType.kRead, true, 0, ⟨false, true, false⟩⟩ :=
  satisfied_region_construction_and_restore_noop ⟨fun _ _ _ => none⟩
    ⟨fun _ _ _ => none⟩ 0 ⟨false, true, false⟩ ProtectGuardType.kRead rfl rfl

/-- C6: for every construction on a region not already satisfying the
requested mode, at most two mutator requests are issued; when the region
passed the Bad check, the first request asks for PAGE_EXECUTE_READWRITE, a
second request exists exactly when the first one failed and asks for
PAGE_READWRITE only, and when both fail the construction fails with the
propagated error. -/
theorem unsatisfied_region_at_most_two_attempts (m : Mutator) (proc : Nat)
    (mbi : Region) (t : ProtectGuardType)
    (hsat : regionSatisfies mbi t = false) :
    (mkProtectGuard m proc mbi t).2.length ≤ 2 ∧
    (mbi.isBad = false →
      (mkProtectGuard m proc mbi t).2.head?
        = some (proc, mbi, PAGE_EXECUTE_READWRITE)) ∧
    (mbi.isBad = false →
      ((mkProtectGuard m proc mbi t).2.length = 2 ↔
        m.protect proc mbi PAGE_EXECUTE_READWRITE = none)) ∧
    (mbi.isBad = false →
      ∀ c ∈ (mkProtectGuard m proc mbi t).2.tail,
        c = (proc, mbi, PAGE_READWRITE)) ∧
    (mbi.isBad = false →
      m.protect proc mbi PAGE_EXECUTE_READWRITE = none →
      m.protect proc mbi PAGE_READWRITE = none →
      (mkProtectGuard m proc mbi t).1
        = Except.error GuardError.accessDenied) := by
  by_cases hbad : mbi.isBad
  · simp [mkProtectGuard, hbad]
  · rcases h1 : m.protect proc mbi PAGE_EXECUTE_READWRITE with _ | prev1
    · rcases h2 : m.protect proc mbi PAGE_READWRITE with _ | prev2 <;>
        simp [mkProtectGuard, hbad, hsat, h1, h2]
    · simp [mkProtectGuard, hbad, hsat, h1]

/-- Witness for C6 at a concrete non-writable region with an always-failing
mutator. -/
theorem unsatisfied_region_at_most_two_attempts_witness :
    (mkProtectGuard ⟨fun _ _ _ => none⟩ 0 ⟨false, false, false⟩
        ProtectGuardType.kWrite).2.length ≤ 2 ∧
    ((⟨false, false, false⟩ : Region).isBad = false →
      (mkProtectGuard ⟨fun _ _ _ => none⟩ 0 ⟨false, false, false⟩
          ProtectGuardType.kWrite).2.head?
        = some (0, ⟨false, false, false⟩, PAGE_EXECUTE_READWRITE)) ∧
    ((⟨false, false, false⟩ : Region).isBad = false →
      ((mkProtectGuard ⟨fun _ _ _ => none⟩ 0 ⟨false, false, false⟩
          ProtectGuardType.kWrite).2.length = 2 ↔
        (⟨fun _ _ _ => none⟩ : Mutator).protect 0 ⟨false, false, false⟩
            PAGE_EXECUTE_READWRITE = none)) ∧
    ((⟨false, false, false⟩ : Region).isBad = false →
      ∀ c ∈ (mkProtectGuard ⟨fun _ _ _ => none⟩ 0 ⟨false, false, false⟩
          ProtectGuardType.kWrite).2.tail,
        c = (0, ⟨false, false, false⟩, PAGE_READWRITE)) ∧
    ((⟨false, false, false⟩ : Region).isBad = false →
      (⟨fun _ _ _ => none⟩ : Mutator).protect 0 ⟨false, false, false⟩
          PAGE_EXECUTE_READWRITE = none →
      (⟨fun _ _ _ => none⟩ : Mutator).protect 0 ⟨false, false, false⟩
          PAGE_READWRITE = none →
      (mkProtectGuard ⟨fun _ _ _ => none⟩ 0 ⟨false, false, false⟩
          ProtectGuardType.kWrite).1
        = Except.error GuardError.accessDenied) :=
  unsatisfied_region_at_most_two_attempts ⟨fun _ _ _ => none⟩ 0
    ⟨false, false, false⟩ ProtectGuardType.kWrite rfl

/-- C1 counterexample: a guard whose construction escalated protection (so a
restore is pending), paired with a mutator that fails to reinstate the
saved flags, makes two mutator requests across two successive Restore
calls — the failing first call keeps old_protect_, so the second call is
not a no-op.  This refutes `at most one Protect call across both
invocations regardless of first-call outcome`. -/
theorem restore_twice_second_call_after_failure :
    (mkProtectGuard ⟨fun _ _ f => if f = 64 then some 5 else none⟩ 0
        ⟨false, false, false⟩ ProtectGuardType.kWrite).1
      = Except.ok
          ⟨0, ProtectGuardType.kWrite, false, 5, ⟨false, false, false⟩⟩ ∧
    ¬ ((((⟨0, ProtectGuardType.kWrite, false, 5, ⟨false, false, false⟩⟩ :
            ProtectGuard).Restore
            ⟨fun _ _ f => if f = 64 then some 5 else none⟩).calls ++
        ((((⟨0, ProtectGuardType.kWrite, false, 5, ⟨false, false, false⟩⟩ :
            ProtectGuard).Restore
            ⟨fun _ _ f => if f = 64 then some 5 else none⟩).guard).Restore
            ⟨fun _ _ f => if f = 64 then some 5 else none⟩).calls).length
        ≤ 1) :=
  ⟨rfl, by decide⟩

/-- C1 as amended: a second Restore issues no mutator request whenever the
first Restore returned normally, so across the two invocations at most one
mutator request is made; only a failed first call (which keeps the saved
protection so that it can be retried) leads to a second request. -/
theorem restore_twice_at_most_one_call_after_success (m : Mutator)
    (g : ProtectGuard) (h : (g.Restore m).ok = true) :
    ((g.Restore m).guard.Restore m).calls = [] ∧
    ((g.Restore m).calls ++ ((g.Restore m).guard.Restore m).calls).length
      ≤ 1 := by
  by_cases h0 : g.old_protect_ = 0
  · simp [ProtectGuard.Restore, h0]
  · by_cases hc : g.can_read_or_write_ = false
    · rcases hp : m.protect g.process_ g.mbi_ g.old_protect_ with _ | prev
      · exfalso
        simp [ProtectGuard.Restore, h0, hc, hp] at h
      · simp [ProtectGuard.Restore, h0, hc, hp]
    · simp [ProtectGuard.Restore, h0, hc]

/-- Witness for the amended C1 at a concrete guard with nothing to
restore. -/
theorem restore_twice_at_most_one_call_after_success_witness :
    ((⟨0, ProtectGuardType.kRead, true, 0, ⟨false, true, true⟩⟩ :
        ProtectGuard).Restore ⟨fun _ _ _ => none⟩).ok = true ∧
    ((((⟨0, ProtectGuardType.kRead, true, 0, ⟨false, true, true⟩⟩ :
        ProtectGuard).Restore ⟨fun _ _ _ => none⟩).guard.Restore
        ⟨fun _ _ _ => none⟩).calls = [] ∧
      (((⟨0, ProtectGuardType.kRead, true, 0, ⟨false, true, true⟩⟩ :
          ProtectGuard).Restore ⟨fun _ _ _ => none⟩).calls ++
        (((⟨0, ProtectGuardType.kRead, true, 0, ⟨false, true, true⟩⟩ :
          ProtectGuard).Restore ⟨fun _ _ _ => none⟩).guard.Restore
          ⟨fun _ _ _ => none⟩).calls).length ≤ 1) :=
  ⟨rfl,
    restore_twice_at_most_one_call_after_success ⟨fun _ _ _ => none⟩
      ⟨0, ProtectGuardType.kRead, true, 0, ⟨false, true, true⟩⟩ rfl⟩

/-- C10: move-assigning onto a guard with a pending restoration issues no
mutator request and overwrites the target's saved previous-protection
value with the source's, so every mutator request any later Restore (or
the destructor's RestoreUnchecked) issues reinstates the source's saved
flags on the source's region — the target's original change is never
restored. -/
theorem move_assign_discards_pending_restore (target other : ProtectGuard)
    (m : Mutator) (hpend : target.old_protect_ ≠ 0) :
    (ProtectGuard.moveAssign target other).calls = [] ∧
    (ProtectGuard.moveAssign target other).target.old_protect_
      = other.old_protect_ ∧
    (∀ c ∈ ((ProtectGuard.moveAssign target other).target.Restore m).calls,
      c = (other.process_, other.mbi_, other.old_protect_)) ∧
    (∀ c ∈ ((ProtectGuard.moveAssign target other).target.RestoreUnchecked
        m).calls,
      c = (other.process_, other.mbi_, other.old_protect_)) := by
  refine ⟨rfl, rfl, ?_, ?_⟩
  · exact restore_calls_shape _ m
  · exact restore_calls_shape _ m

/-- Witness for C10 at a concrete engaged target guard. -/
theorem move_assign_discards_pending_restore_witness :
    (⟨0, ProtectGuardType.kWrite, false, 7, ⟨false, false, false⟩⟩ :
        ProtectGuard).old_protect_ ≠ 0 ∧
    ((ProtectGuard.moveAssign
        ⟨0, ProtectGuardType.kWrite, false, 7, ⟨false, false, false⟩⟩
        ⟨1, ProtectGuardType.kRead, false, 3, ⟨false, true, false⟩⟩).calls
        = [] ∧
      (ProtectGuard.moveAssign
        ⟨0, ProtectGuardType.kWrite, false, 7, ⟨false, false, false⟩⟩
        ⟨1, ProtectGuardType.kRead, false, 3,
          ⟨false, true, false⟩⟩).target.old_protect_
        = (⟨1, ProtectGuardType.kRead, false, 3, ⟨false, true, false⟩⟩ :
            ProtectGuard).old_protect_ ∧
      (∀ c ∈ ((ProtectGuard.moveAssign
          ⟨0, ProtectGuardType.kWrite, false, 7, ⟨false, false, false⟩⟩
          ⟨1, ProtectGuardType.kRead, false, 3,
            ⟨false, true, false⟩⟩).target.Restore
          ⟨fun _ _ _ => some 0⟩).calls,
        c = ((⟨1, ProtectGuardType.kRead, false, 3, ⟨false, true, false⟩⟩ :
              ProtectGuard).process_,
            (⟨1, ProtectGuardType.kRead, false, 3, ⟨false, true, false⟩⟩ :
              ProtectGuard).mbi_,
            (⟨1, ProtectGuardType.kRead, false, 3, ⟨false, true, false⟩⟩ :
              ProtectGuard).old_protect_)) ∧
      (∀ c ∈ ((ProtectGuard.moveAssign
          ⟨0, ProtectGuardType.kWrite, false, 7, ⟨false, false, false⟩⟩
          ⟨1, ProtectGuardType.kRead, false, 3,
            ⟨false, true, false⟩⟩).target.RestoreUnchecked
          ⟨fun _ _ _ => some 0⟩).calls,
        c = ((⟨1, ProtectGuardType.kRead, false, 3, ⟨false, true, false⟩⟩ :
              ProtectGuard).process_,
            (⟨1, ProtectGuardType.kRead, false, 3, ⟨false, true, false⟩⟩ :
              ProtectGuard).mbi_,
            (⟨1, ProtectGuardType.kRead, false, 3, ⟨false, true, false⟩⟩ :
              ProtectGuard).old_protect_))) :=
  ⟨by decide,
    move_assign_discards_pending_restore
      ⟨0, ProtectGuardType.kWrite, false, 7, ⟨false, false, false⟩⟩
      ⟨1, ProtectGuardType.kRead, false, 3, ⟨false, true, false⟩⟩
      ⟨fun _ _ _ => some 0⟩ (by decide)⟩

/-! ### Claims about the interception proxy -/

/-- The inductive invariant of contract-respecting proxy executions: the
external count has hit zero at most once, can only have hit zero if it is
now nonpositive, and the proxy is destroyed only with the wrapped count at
zero. -/
def ProxyInv (s : ProxyState) : Prop :=
  s.zeroTransitions ≤ 1 ∧ (s.zeroTransitions = 1 → s.refs ≤ 0) ∧
    (s.destroyed = true → s.deviceRefs = 0)

/-- One contract-respecting step preserves the proxy invariant. -/
theorem proxyStep_inv {s s2 : ProxyState} {op : ProxyOp}
    (h : ProxyInv s) (hstep : proxyStep s op = some s2) : ProxyInv s2 := by
  obtain ⟨hz, hz1, hd⟩ := h
  unfold proxyStep at hstep
  by_cases hdes : s.destroyed = true
  · simp [hdes] at hstep
  · by_cases hr : s.refs < 1
    · simp [hdes, hr] at hstep
    · have hzt : s.zeroTransitions = 0 := by
        by_cases h1 : s.zeroTransitions = 1
        · exact absurd (hz1 h1) (by omega)
        · omega
      cases op with
      | opAddRef =>
        simp [hdes, hr] at hstep
        subst hstep
        refine ⟨by simp [addRefStep, hzt], by simp [addRefStep, hzt], ?_⟩
        simp only [addRefStep]
        intro hcon
        exact absurd hcon hdes
      | opRelease =>
        simp [hdes, hr] at hstep
        subst hstep
        by_cases hz0 : s.refs - 1 = 0
        · refine ⟨by simp [releaseStep, hzt, hz0], ?_, ?_⟩
          · intro _
            simp [releaseStep, hz0]
          · simp [releaseStep]
        · refine ⟨by simp [releaseStep, hzt, hz0], ?_, ?_⟩
          · intro hcon
            simp [releaseStep, hzt, hz0] at hcon
          · simp [releaseStep]
      | opQuerySelf =>
        simp [hdes, hr] at hstep
        subst hstep
        refine ⟨?_, ?_, ?_⟩ <;>
          simp [queryInterfaceStep, E_NOINTERFACE, hzt]
        simpa using hdes

/-- Contract-respecting executions preserve the proxy invariant. -/
theorem proxyExec_inv {ops : List ProxyOp} {s s2 : ProxyState}
    (h : ProxyInv s) (hex : proxyExec s ops = some s2) : ProxyInv s2 := by
  induction ops generalizing s with
  | nil =>
    simp [proxyExec] at hex
    rwa [← hex]
  | cons op ops ih =>
    unfold proxyExec at hex
    cases hstep : proxyStep s op with
    | none => rw [hstep] at hex; exact absurd hex (by simp)
    | some smid =>
      rw [hstep] at hex
      exact ih (proxyStep_inv h hstep) hex

/-- C3: along every contract-respecting execution of the proxy starting from
a freshly wrapped device, the external reference count transitions to zero
at most once, and whenever the proxy has been destroyed the wrapped
object's own returned count was zero. -/
theorem proxy_zero_transition_at_most_once (d0 : Nat) (ops : List ProxyOp)
    (s : ProxyState) (h : proxyExec (initProxy d0) ops = some s) :
    s.zeroTransitions ≤ 1 ∧ (s.destroyed = true → s.deviceRefs = 0) := by
  have hinit : ProxyInv (initProxy d0) := by
    refine ⟨by simp [initProxy], by simp [initProxy], by simp [initProxy]⟩
  have hinv := proxyExec_inv hinit h
  exact ⟨hinv.1, hinv.2.2⟩

/-- Witness for C3: wrap a device with two holders, AddRef once, Release
twice; the run stays defined, hits zero once and does not destroy the
proxy. -/
theorem proxy_zero_transition_at_most_once_witness :
    proxyExec (initProxy 2)
        [ProxyOp.opAddRef, ProxyOp.opRelease, ProxyOp.opRelease]
      = some ⟨0, 1, false, 1, 1⟩ ∧
    ((⟨0, 1, false, 1, 1⟩ : ProxyState).zeroTransitions ≤ 1 ∧
      ((⟨0, 1, false, 1, 1⟩ : ProxyState).destroyed = true →
        (⟨0, 1, false, 1, 1⟩ : ProxyState).deviceRefs = 0)) :=
  ⟨by decide,
    proxy_zero_transition_at_most_once 2
      [ProxyOp.opAddRef, ProxyOp.opRelease, ProxyOp.opRelease]
      ⟨0, 1, false, 1, 1⟩ (by decide)⟩

/-- Every occurrence of `a` in `l` sits strictly before every occurrence of
`b`: the happens-before relation on the events of one call. -/
abbrev eventPrecedes (a b : ReleaseEvent) (l : List ReleaseEvent) : Prop :=
  ∀ i j : Fin l.length, l.get i = a → l.get j = b → (i : Nat) < (j : Nat)

/-- The value Release returns is the wrapped object's decremented count. -/
theorem releaseStep_ret (s : ProxyState) :
    (releaseStep s).ret = s.deviceRefs - 1 :=
  rfl

/-- C4: in every Release call, the external-count decrement is the first
observable step; the Cleanup hook runs exactly when the decrement brought
the count to zero and always before the forwarded wrapped Release; the
forwarded Release always happens; and `delete this` happens exactly when
the wrapped Release returned zero, after the forwarded Release. -/
theorem release_event_order (s : ProxyState) :
    (releaseStep s).events.head? = some ReleaseEvent.decRef ∧
    ReleaseEvent.forwardRelease ∈ (releaseStep s).events ∧
    (ReleaseEvent.cleanup ∈ (releaseStep s).events ↔ s.refs - 1 = 0) ∧
    (ReleaseEvent.destroy ∈ (releaseStep s).events ↔ (releaseStep s).ret = 0) ∧
    eventPrecedes ReleaseEvent.cleanup ReleaseEvent.forwardRelease
      (releaseStep s).events ∧
    eventPrecedes ReleaseEvent.forwardRelease ReleaseEvent.destroy
      (releaseStep s).events := by
  by_cases h1 : s.refs - 1 = 0
  · by_cases h2 : s.deviceRefs - 1 = 0
    · have hev : (releaseStep s).events
          = [ReleaseEvent.decRef, ReleaseEvent.cleanup,
              ReleaseEvent.forwardRelease, ReleaseEvent.destroy] := by
        simp [releaseStep, h1, h2]
      rw [hev, releaseStep_ret]
      refine ⟨rfl, by decide, by simp [h1], by simp [h2], by decide, by decide⟩
    · have hev : (releaseStep s).events
          = [ReleaseEvent.decRef, ReleaseEvent.cleanup,
              ReleaseEvent.forwardRelease] := by
        simp [releaseStep, h1, h2]
      rw [hev, releaseStep_ret]
      refine ⟨rfl, by decide, by simp [h1], by simp [h2], by decide, by decide⟩
  · by_cases h2 : s.deviceRefs - 1 = 0
    · have hev : (releaseStep s).events
          = [ReleaseEvent.decRef, ReleaseEvent.forwardRelease,
              ReleaseEvent.destroy] := by
        simp [releaseStep, h1, h2]
      rw [hev, releaseStep_ret]
      refine ⟨rfl, by decide, by simp [h1], by simp [h2], by decide, by decide⟩
    · have hev : (releaseStep s).events
          = [ReleaseEvent.decRef, ReleaseEvent.forwardRelease] := by
        simp [releaseStep, h1, h2]
      rw [hev, releaseStep_ret]
      refine ⟨rfl, by decide, by simp [h1], by simp [h2], by decide, by decide⟩

/-- Witness for C4 at a concrete state. -/
theorem release_event_order_witness :
    (releaseStep ⟨1, 1, false, 0, 0⟩).events.head?
      = some ReleaseEvent.decRef ∧
    ReleaseEvent.forwardRelease ∈ (releaseStep ⟨1, 1, false, 0, 0⟩).events ∧
    (ReleaseEvent.cleanup ∈ (releaseStep ⟨1, 1, false, 0, 0⟩).events ↔
      (⟨1, 1, false, 0, 0⟩ : ProxyState).refs - 1 = 0) ∧
    (ReleaseEvent.destroy ∈ (releaseStep ⟨1, 1, false, 0, 0⟩).events ↔
      (releaseStep ⟨1, 1, false, 0, 0⟩).ret = 0) ∧
    eventPrecedes ReleaseEvent.cleanup ReleaseEvent.forwardRelease
      (releaseStep ⟨1, 1, false, 0, 0⟩).events ∧
    eventPrecedes ReleaseEvent.forwardRelease ReleaseEvent.destroy
      (releaseStep ⟨1, 1, false, 0, 0⟩).events :=
  release_event_order ⟨1, 1, false, 0, 0⟩

/-- C5: for every successful identity query through the proxy, a self
identity is answered with the proxy substituted through the output pointer,
the external count incremented by exactly one and no foreign release; a
different identity is answered with E_NOINTERFACE (the UnhandledIdentity
failure), exactly one release of the foreign handle, and an unchanged proxy
state. -/
theorem query_interface_identity (s : ProxyState) (d : DeviceQIResult)
    (h : 0 ≤ d.hr) :
    (d.out = Handle.device →
      (queryInterfaceStep s d).out = some Handle.proxy ∧
      (queryInterfaceStep s d).state.refs = s.refs + 1 ∧
      (queryInterfaceStep s d).hr = d.hr ∧
      (queryInterfaceStep s d).foreignReleases = 0) ∧
    (d.out ≠ Handle.device →
      (queryInterfaceStep s d).hr = E_NOINTERFACE ∧
      (queryInterfaceStep s d).foreignReleases = 1 ∧
      (queryInterfaceStep s d).state = s) := by
  constructor
  · intro hout
    simp [queryInterfaceStep, h, hout]
  · intro hout
    simp [queryInterfaceStep, h, hout]

/-- Witness for C5 at both concrete outcomes: a self identity and a foreign
identity. -/
theorem query_interface_identity_witness :
    (((⟨0, Handle.device⟩ : DeviceQIResult).out = Handle.device →
      (queryInterfaceStep (initProxy 1) ⟨0, Handle.device⟩).out
        = some Handle.proxy ∧
      (queryInterfaceStep (initProxy 1) ⟨0, Handle.device⟩).state.refs
        = (initProxy 1).refs + 1 ∧
      (queryInterfaceStep (initProxy 1) ⟨0, Handle.device⟩).hr
        = (⟨0, Handle.device⟩ : DeviceQIResult).hr ∧
      (queryInterfaceStep (initProxy 1) ⟨0, Handle.device⟩).foreignReleases
        = 0) ∧
    ((⟨0, Handle.device⟩ : DeviceQIResult).out ≠ Handle.device →
      (queryInterfaceStep (initProxy 1) ⟨0, Handle.device⟩).hr
        = E_NOINTERFACE ∧
      (queryInterfaceStep (initProxy 1) ⟨0, Handle.device⟩).foreignReleases
        = 1 ∧
      (queryInterfaceStep (initProxy 1) ⟨0, Handle.device⟩).state
        = initProxy 1)) ∧
    (((⟨0, Handle.other⟩ : DeviceQIResult).out = Handle.device →
      (queryInterfaceStep (initProxy 1) ⟨0, Handle.other⟩).out
        = some Handle.proxy ∧
      (queryInterfaceStep (initProxy 1) ⟨0, Handle.other⟩).state.refs
        = (initProxy 1).refs + 1 ∧
      (queryInterfaceStep (initProxy 1) ⟨0, Handle.other⟩).hr
        = (⟨0, Handle.other⟩ : DeviceQIResult).hr ∧
      (queryInterfaceStep (initProxy 1) ⟨0, Handle.other⟩).foreignReleases
        = 0) ∧
    ((⟨0, Handle.other⟩ : DeviceQIResult).out ≠ Handle.device →
      (queryInterfaceStep (initProxy 1) ⟨0, Handle.other⟩).hr
        = E_NOINTERFACE ∧
      (queryInterfaceStep (initProxy 1) ⟨0, Handle.other⟩).foreignReleases
        = 1 ∧
      (queryInterfaceStep (initProxy 1) ⟨0, Handle.other⟩).state
        = initProxy 1)) :=
  ⟨query_interface_identity (initProxy 1) ⟨0, Handle.device⟩ (by decide),
    query_interface_identity (initProxy 1) ⟨0, Handle.other⟩ (by decide)⟩

/-- C2 counterexample: AddRef delegates to the wrapped object and adds
instrumentation (the external-count increment and a trace statement), yet
installs no error-state preserver; with a wrapped AddRef leaving ambient
error 7 and a trace effect leaving 0, the caller observes 0, not the
value immediately after the wrapped call. -/
theorem addref_ambient_error_not_preserved :
    (addRefCall (fun _ => (1, 7)) (fun _ => 0) 1 5).ambient
      ≠ ((fun (_ : Nat) => ((1 : Nat), (7 : Nat))) 5).2 := by
  decide

/-- C2 as amended: at every interception point that installs the
LastErrorPreserver — QueryInterface, Release, GetDeviceState and
GetDeviceData — the ambient error state the caller observes on return
equals its value immediately after the wrapped object's own call, for
every behaviour of the wrapped call and of the instrumentation; AddRef
installs no preserver and is exempt. -/
theorem preserver_points_isolate_ambient_error :
    (∀ (dev : Nat → CallOutcome) (cb : Int → Nat → CallOutcome) (e0 : Nat),
      (getDeviceState dev cb e0).ambient = (dev e0).ambient) ∧
    (∀ (dev : Nat → CallOutcome) (cb : Int → Nat → CallOutcome) (e0 : Nat),
      (getDeviceData dev cb e0).ambient = (dev e0).ambient) ∧
    (∀ (pre : Nat → Nat) (dev : Nat → Nat × Nat) (post : Nat → Nat)
        (e0 : Nat),
      (releaseAmbient pre dev post e0).2 = (dev e0).2) ∧
    (∀ (dev : Nat → Int × Nat) (post : Nat → Nat) (e0 : Nat),
      (queryInterfaceAmbient dev post e0).2 = (dev e0).2) :=
  ⟨fun _ _ _ => rfl, fun _ _ _ => rfl, fun _ _ _ _ => rfl, fun _ _ _ => rfl⟩

/-! ### Claims about the batch inspection driver -/

/-- C9: a batch run visits every target even when some fail: an entry whose
process cannot be opened contributes its report and leaves every other
entry's output unchanged, one output is produced per entry, and inside a
process an invalid-PE module contributes its warning and leaves every other
module's output unchanged — no per-target failure truncates the run. -/
theorem batch_dump_continues_past_failures (ps1 ps2 : List ProcessEntryInfo)
    (p : ProcessEntryInfo) (hfail : p.openOk = false) :
    dumpProcesses (ps1 ++ p :: ps2)
      = dumpProcesses ps1 ++
          ProcessDumpResult.couldNotOpen :: dumpProcesses ps2 ∧
    (dumpProcesses (ps1 ++ p :: ps2)).length
      = ps1.length + 1 + ps2.length ∧
    (∀ (ms1 ms2 : List ModuleInfo) (m : ModuleInfo), m.validPe = false →
      dumpModules (ms1 ++ m :: ms2)
        = dumpModules ms1 ++
            ModuleDumpResult.warnedInvalidPe :: dumpModules ms2) ∧
    (∀ ms : List ModuleInfo, (dumpModules ms).length = ms.length) := by
  refine ⟨?_, ?_, ?_, ?_⟩
  · simp [dumpProcesses, dumpProcessEntry, hfail]
  · simp [dumpProcesses]
    omega
  · intro ms1 ms2 m hm
    simp [dumpModules, dumpModule, parseHeaders, hm]
  · intro ms
    simp [dumpModules]

/-- Witness for C9: a three-entry batch whose middle entry cannot be
opened. -/
theorem batch_dump_continues_past_failures_witness :
    dumpProcesses ([⟨true, [⟨true⟩]⟩] ++ ⟨false, []⟩ :: [⟨true, [⟨false⟩]⟩])
      = dumpProcesses [⟨true, [⟨true⟩]⟩] ++
          ProcessDumpResult.couldNotOpen ::
            dumpProcesses [⟨true, [⟨false⟩]⟩] ∧
    (dumpProcesses
        ([⟨true, [⟨true⟩]⟩] ++ ⟨false, []⟩ :: [⟨true, [⟨false⟩]⟩])).length
      = [(⟨true, [⟨true⟩]⟩ : ProcessEntryInfo)].length + 1 +
          [(⟨true, [⟨false⟩]⟩ : ProcessEntryInfo)].length ∧
    (∀ (ms1 ms2 : List ModuleInfo) (m : ModuleInfo), m.validPe = false →
      dumpModules (ms1 ++ m :: ms2)
        = dumpModules ms1 ++
            ModuleDumpResult.warnedInvalidPe :: dumpModules ms2) ∧
    (∀ ms : List ModuleInfo, (dumpModules ms).length = ms.length) :=
  batch_dump_continues_past_failures [⟨true, [⟨true⟩]⟩] [⟨true, [⟨false⟩]⟩]
    ⟨false, []⟩ rfl

end Hadesmem
